import Mathlib

/-!
Verification of the social-media-API core logic.

Shallow embedding of the post lifecycle, visibility rules, follow graph,
counter maintenance, like endpoint and hashtag extraction of the
repository, together with theorems settling the specification claims.

Timestamps are modelled as `Nat`; database ids as `Nat`.  A nullable
column is `Option`; a request body field that may be absent is an outer
`Option` (key present?) around the value.
-/

namespace SocialMedia

/-- Post lifecycle states (content/models.py `Post.PostStatus`). -/
inductive PostStatus
  | draft
  | scheduled
  | published
  | canceled
  deriving DecidableEq, Repr

/-- Follow edge states (networking/models.py `Follow.FollowStatus`). -/
inductive FollowStatus
  | pending
  | accepted
  | rejected
  deriving DecidableEq, Repr

/-- The columns of a `Post` row relevant to the lifecycle
(content/models.py `Post`). -/
structure Post where
  authorId : Nat
  status : PostStatus
  scheduled_at : Option Nat
  published_at : Option Nat
  scheduled_task_id : Option Nat
  deriving DecidableEq, Repr

/-- The columns of a `Profile` row relevant to visibility
(user/models.py `Profile`). -/
structure Profile where
  id : Nat
  userId : Nat
  is_private : Bool
  deriving DecidableEq, Repr

/-- A row of the `Follow` table (networking/models.py `Follow`):
a directed edge between profile ids carrying a status. -/
structure FollowEdge where
  follower : Nat
  following : Nat
  status : FollowStatus
  deriving DecidableEq, Repr

/-- `Follow.objects.filter(follower=v, following=a, status=ACCEPTED).exists()`. -/
def followAcceptedExists (edges : List FollowEdge) (viewer author : Nat) : Bool :=
  edges.any fun e =>
    e.follower = viewer && e.following = author && e.status = FollowStatus.accepted

/-- content/tasks.py `publish_post`: the deferred publication task.
The database row for `post_id` is `db` (`none` models `Post.DoesNotExist`,
which the task catches and returns).  The task re-checks that the status is
still `scheduled` and that `scheduled_at` has passed before publishing. -/
def publish_post (now : Nat) (db : Option Post) : Option Post :=
  match db with
  | none => none
  | some p =>
    if p.status ≠ PostStatus.scheduled then some p
    else
      match p.scheduled_at with
      | none => some p
      | some t =>
        if t > now then some p
        else
          some { p with
            status := PostStatus.published
            published_at := some now
            scheduled_at := none
            scheduled_task_id := none }

/-- The mutable request-body fields of `PostSerializer`
(content/serializers.py).  The outer `Option` records whether the key
was present in the request (`"status" in data`); `scheduled_at` is in
addition nullable, hence `Option (Option Nat)`. -/
structure PostData where
  status : Option PostStatus
  scheduled_at : Option (Option Nat)
  deriving DecidableEq, Repr

/-- The non-published branch of `PostSerializer.validate`: resolve the
target status and schedule time against the instance, demand a future
`scheduled_at` for scheduled posts, and null `scheduled_at` otherwise. -/
def postValidateGeneral (selfInstance : Option Post) (data : PostData) (now : Nat) :
    Except String PostData :=
  let target_status :=
    data.status.getD ((selfInstance.map Post.status).getD PostStatus.draft)
  let scheduled_at :=
    match data.scheduled_at with
    | some v => v
    | none => (selfInstance.map Post.scheduled_at).getD none
  if target_status = PostStatus.scheduled then
    match scheduled_at with
    | none => Except.error "This field is required for scheduled posts."
    | some t =>
      if t ≤ now then Except.error "Must be in the future."
      else Except.ok data
  else
    Except.ok { data with scheduled_at := some none }

/-- content/serializers.py `PostSerializer.validate`.  `instance` is
`self.instance` (`none` on create).  Returns the possibly rewritten data
or a field-level validation error message. -/
def postValidate (selfInstance : Option Post) (data : PostData) (now : Nat) :
    Except String PostData :=
  match selfInstance with
  | some inst =>
    if inst.status = PostStatus.published then
      if (match data.status with
          | some s => s != PostStatus.published
          | none => false) then
        Except.error "Published post cant change status."
      else if (match data.scheduled_at with
          | some (some _) => true
          | _ => false) then
        Except.error "Published post cant be scheduled."
      else
        Except.ok { data with
          status := some PostStatus.published
          scheduled_at := some none }
    else postValidateGeneral selfInstance data now
  | none => postValidateGeneral selfInstance data now

/-- content/serializers.py `PostSerializer.create`: builds the new row
from the validated data (`published_at` is read-only, so it is absent
from the data; the model default for `status` is `draft`). -/
def postCreate (authorId : Nat) (data : PostData) (now : Nat) : Post :=
  let st := data.status.getD PostStatus.draft
  { authorId := authorId
    status := st
    scheduled_at := (data.scheduled_at.getD none)
    published_at := if st = PostStatus.published then some now else none
    scheduled_task_id := none }

/-- content/serializers.py `PostSerializer.update`: applies the
validated data to the existing row.  On a transition into `published`
it stamps `published_at = now` and clears `scheduled_at` and the task
reference; otherwise a field absent from the data keeps its old value. -/
def postUpdate (inst : Post) (data : PostData) (now : Nat) : Post :=
  let old := inst.status
  let new := data.status.getD old
  if old ≠ PostStatus.published ∧ new = PostStatus.published then
    { inst with
      status := new
      published_at := some now
      scheduled_at := none
      scheduled_task_id := none }
  else
    { inst with
      status := new
      scheduled_at :=
        match data.scheduled_at with
        | some v => v
        | none => inst.scheduled_at }

/-- The database invariants of content/models.py `Post.Meta.constraints`
(`scheduled_requires_time` and `published_requires_time`):
`status = scheduled ↔ scheduled_at` set, `status = published ↔
published_at` set. -/
def postInvariant (p : Post) : Bool :=
  (decide (p.status = PostStatus.scheduled) == !p.scheduled_at.isNone) &&
  (decide (p.status = PostStatus.published) == !p.published_at.isNone)

/-- content/scheduling.py `revoke_task`: best-effort cancellation.  The
scheduler holds a list of live task handles; `fails` models the celery
call raising, which the `except Exception: pass` swallows.  Returns the
scheduler state afterwards and the outcome seen by the caller. -/
def revoke_task (task_id : Option Nat) (sched : List Nat) (fails : Bool) :
    List Nat × Except Unit Unit :=
  match task_id with
  | none => (sched, Except.ok ())
  | some tid =>
    if fails then (sched, Except.ok ())
    else (sched.filter (fun x => x ≠ tid), Except.ok ())

/-- Deletion of a post row together with the `post_delete` receiver
content/signals.py `revoke_scheduled_task`: when the deleted instance was
`scheduled` and carried a task reference, the deferred task is revoked
best-effort.  Returns the post row, the scheduler state and the outcome
of the user-facing delete. -/
def deletePost (db : Option Post) (sched : List Nat) (cancelFails : Bool) :
    Option Post × List Nat × Except Unit Unit :=
  match db with
  | none => (none, sched, Except.ok ())
  | some p =>
    if p.status = PostStatus.scheduled ∧ p.scheduled_task_id ≠ none then
      let r := revoke_task p.scheduled_task_id sched cancelFails
      (none, r.1, r.2)
    else (none, sched, Except.ok ())

/-- The request context seen by content/permissions.py: authentication
flag, the id of `request.user.profile`, and whether the method is in
`SAFE_METHODS` or is `POST`. -/
structure RequestCtx where
  is_authenticated : Bool
  profileId : Nat
  safe_or_post : Bool
  deriving DecidableEq, Repr

/-- content/permissions.py `CanViewPostDetail.has_object_permission`. -/
def canViewPostDetail (edges : List FollowEdge) (req : RequestCtx)
    (post : Post) : Bool :=
  if !req.is_authenticated then false
  else if post.authorId = req.profileId then true
  else if req.safe_or_post then
    decide (post.status = PostStatus.published) &&
      followAcceptedExists edges req.profileId post.authorId
  else false

/-- The claim's post-visibility rule, written from the spec's words for
comparison with `canViewPostDetail`: owner → full; otherwise access is
granted exactly when the post is published and (the author's profile is
public or an accepted follow viewer→author exists). -/
def canViewPostClaim (edges : List FollowEdge) (req : RequestCtx)
    (author : Profile) (post : Post) : Bool :=
  if post.authorId = req.profileId then true
  else
    decide (post.status = PostStatus.published) &&
      (!author.is_private || followAcceptedExists edges req.profileId post.authorId)

/-- The amended post-visibility rule actually implemented: authenticated
viewers only; owner → full; otherwise (read methods) access exactly when
the post is published and an accepted follow viewer→author exists; the
author's profile privacy flag is never consulted. -/
def canViewPostAmended (edges : List FollowEdge) (req : RequestCtx)
    (post : Post) : Bool :=
  req.is_authenticated &&
    (decide (post.authorId = req.profileId) ||
      (req.safe_or_post && decide (post.status = PostStatus.published) &&
        followAcceptedExists edges req.profileId post.authorId))

/-- The viewer argument of `Profile.can_view_details`: a user object with
an authentication flag, a user id, and possibly no associated profile
(`getattr(viewer_user, "profile", None)`). -/
structure ViewerUser where
  is_authenticated : Bool
  id : Nat
  profile : Option Nat
  deriving DecidableEq, Repr

/-- user/models.py `Profile.can_view_details`.  The `AttributeError`
raised by `viewer_profile.id` when `viewer_profile` is `None` is
modelled as `.error ()`. -/
def can_view_details (prof : Profile) (edges : List FollowEdge)
    (viewer : ViewerUser) : Except Unit Bool :=
  if !prof.is_private then Except.ok true
  else if !viewer.is_authenticated then Except.ok false
  else if viewer.id = prof.userId then Except.ok true
  else
    match viewer.profile with
    | none => Except.error ()
    | some vp => Except.ok (followAcceptedExists edges vp prof.id)

/-- `Follow.objects.get(...)`-style lookup of the unique edge for an
ordered (follower, following) pair. -/
def findEdge (edges : List FollowEdge) (a b : Nat) : Option FollowEdge :=
  edges.find? fun e => e.follower = a && e.following = b

/-- networking/views.py `PublicProfileViewSet.follow`: self-follow is a
400; otherwise `get_or_create` with the desired status (accepted for a
public target, pending for a private one), and a pre-existing
non-accepted edge toward a private target is reset to pending. -/
def followRequest (edges : List FollowEdge) (meId : Nat) (target : Profile) :
    Except String (List FollowEdge) :=
  if meId = target.id then Except.error "Cannot follow yourself."
  else
    let desired :=
      if target.is_private then FollowStatus.pending else FollowStatus.accepted
    match findEdge edges meId target.id with
    | none =>
      Except.ok ({ follower := meId, following := target.id, status := desired } :: edges)
    | some e =>
      if target.is_private && e.status != FollowStatus.accepted then
        Except.ok (edges.map fun x =>
          if x.follower = meId && x.following = target.id then
            { x with status := FollowStatus.pending }
          else x)
      else Except.ok edges

/-- networking/signals.py `_update_counters_on_save` /
`_update_counters_on_delete` decrement: `Greatest(F("...") - 1, 0)`. -/
def followCounterDec (c : Int) : Int := max (c - 1) 0

/-- content/views.py `PostViewSet.like` DELETE branch decrement:
`F("likes_count") - 1`. -/
def likesCountDec (c : Int) : Int := c - 1

/-- content/views.py `CommentViewSet.perform_destroy` decrement:
`F("comments_count") - 1`, applied on every comment soft-delete. -/
def commentsCountDec (c : Int) : Int := c - 1

/-- The state the like endpoint touches: whether a `Like` row exists for
the (post, user) pair, and the post's denormalized `likes_count`. -/
structure LikeState where
  row_exists : Bool
  likes_count : Int
  deriving DecidableEq, Repr

/-- The body of the like endpoint's response. -/
structure LikeResponse where
  liked : Bool
  likes_count : Int
  deriving DecidableEq, Repr

/-- content/views.py `PostViewSet.like`, PUT branch: `get_or_create`;
the counter is incremented only when the row was created. -/
def likePut (s : LikeState) : LikeState × LikeResponse :=
  if s.row_exists then (s, { liked := true, likes_count := s.likes_count })
  else
    let s2 : LikeState := { row_exists := true, likes_count := s.likes_count + 1 }
    (s2, { liked := true, likes_count := s2.likes_count })

/-- content/views.py `PostViewSet.like`, DELETE branch: delete the row;
the counter is decremented only when a row was actually deleted. -/
def likeDelete (s : LikeState) : LikeState × LikeResponse :=
  if s.row_exists then
    let s2 : LikeState :=
      { row_exists := false, likes_count := likesCountDec s.likes_count }
    (s2, { liked := false, likes_count := s2.likes_count })
  else (s, { liked := false, likes_count := s.likes_count })

/-- The regex class `\w` of `HASHTAG_RE`, on the ASCII fragment this
model covers: letters, digits and underscore. -/
def isWordChar (c : Char) : Bool := c.isAlphanum || c = '_'

/-- The regex class `[\w-]` of `HASHTAG_RE`. -/
def isTagChar (c : Char) : Bool := isWordChar c || c = '-'

/-- `re.findall` of content/serializers.py
`HASHTAG_RE = re.compile(r"(?<!\w)#([\w-]{1,50})")`: scan left to right;
at a `#` not preceded by a word character, greedily capture up to 50 tag
characters (at least one); scanning resumes after the match.  `prev` is
the character just before the scan position (`none` at string start). -/
def hashtagScan : Nat → Option Char → List Char → List (List Char)
  | 0, _, _ => []
  | _, _, [] => []
  | fuel + 1, prev, c :: rest =>
    if c = '#' && (match prev with | some p => !isWordChar p | none => true) then
      let m := (rest.takeWhile isTagChar).take 50
      if m.isEmpty then hashtagScan fuel (some c) rest
      else m :: hashtagScan fuel (some (m.getLastD c)) (rest.drop m.length)
    else hashtagScan fuel (some c) rest

/-- The scan with enough fuel for the whole string: each step consumes
one unit of fuel and at least one character, so `s.length` is exact. -/
def hashtagFindAll (prev : Option Char) (s : List Char) : List (List Char) :=
  hashtagScan s.length prev s

/-- content/serializers.py `PostSerializer._extract_tags_from_content`:
`[m.lower() for m in HASHTAG_RE.findall(content or "")]`. -/
def extract_tags_from_content (content : String) : List String :=
  (hashtagFindAll none content.toList).map fun m => String.mk (m.map Char.toLower)

/-- Number of `Follow` rows for an ordered (follower, following) pair;
the unique constraint `unique_follow_profile` keeps this at most one. -/
def pairCount (edges : List FollowEdge) (a b : Nat) : Nat :=
  edges.countP fun e => e.follower = a && e.following = b

/-- A concrete scheduled post used for witness instantiations. -/
def exampleScheduledPost : Post :=
  { authorId := 1
    status := PostStatus.scheduled
    scheduled_at := some 5
    published_at := none
    scheduled_task_id := some 7 }

/-- `exampleScheduledPost` after the publish task runs at time 10. -/
def examplePublishedPost : Post :=
  { authorId := 1
    status := PostStatus.published
    scheduled_at := none
    published_at := some 10
    scheduled_task_id := none }

/-- A concrete published post by author profile 2, used in the C1
counterexample. -/
def examplePublicAuthorPost : Post :=
  { authorId := 2
    status := PostStatus.published
    scheduled_at := none
    published_at := some 0
    scheduled_task_id := none }

/-- C1: the spec's rule grants a non-owner access to a published post of
a public author even without a follow edge; the code's
`CanViewPostDetail` denies it, because it never consults the author's
privacy flag.  Concrete input: viewer profile 1 (authenticated, read
method), author profile 2 public, post published, no follow edges. -/
theorem claim_C1_counterexample :
    canViewPostClaim [] { is_authenticated := true, profileId := 1, safe_or_post := true }
      { id := 2, userId := 20, is_private := false }
      examplePublicAuthorPost = true ∧
    canViewPostDetail [] { is_authenticated := true, profileId := 1, safe_or_post := true }
      examplePublicAuthorPost = false := by
  exact ⟨rfl, rfl⟩

/-- C1 (amended): post-detail access requires authentication; the owner
has full access; any other viewer is granted access (on read methods)
exactly when the post is published and an accepted follow edge
viewer→author exists — the author's profile privacy is not consulted. -/
theorem claim_C1_post_visibility_amended
    (edges : List FollowEdge) (req : RequestCtx) (post : Post) :
    canViewPostDetail edges req post = canViewPostAmended edges req post := by
  rcases req with ⟨auth, pid, sop⟩
  cases auth <;> cases sop <;>
    by_cases h : post.authorId = pid <;>
      simp [canViewPostDetail, canViewPostAmended, h]

/-- C3: the deferred publish task is idempotent: it acts only on a post
that is still `scheduled` with a passed `scheduled_at`, in which case it
stamps `published_at = now` and clears `scheduled_at` and the task
reference; it is a no-op on a missing post or any other status, re-running
it at the same instant changes nothing, and any re-run after a successful
publication leaves the state of the first run intact. -/
theorem claim_C3_publish_idempotent :
    (∀ now, publish_post now none = none) ∧
    (∀ now (p : Post), p.status ≠ PostStatus.scheduled →
      publish_post now (some p) = some p) ∧
    (∀ now (p : Post) (t : Nat), p.status = PostStatus.scheduled →
      p.scheduled_at = some t → t ≤ now →
      publish_post now (some p) =
        some { p with
          status := PostStatus.published
          published_at := some now
          scheduled_at := none
          scheduled_task_id := none }) ∧
    (∀ now nowLater (p : Post) (t : Nat), p.status = PostStatus.scheduled →
      p.scheduled_at = some t → t ≤ now →
      publish_post nowLater (publish_post now (some p)) = publish_post now (some p)) ∧
    (∀ now db, publish_post now (publish_post now db) = publish_post now db) := by
  have hrun : ∀ now (p : Post) (t : Nat), p.status = PostStatus.scheduled →
      p.scheduled_at = some t → t ≤ now →
      publish_post now (some p) =
        some { p with
          status := PostStatus.published
          published_at := some now
          scheduled_at := none
          scheduled_task_id := none } := by
    intro now p t hs ht hle
    have hgt : ¬ t > now := by omega
    simp [publish_post, hs, ht, hgt]
  refine ⟨fun now => rfl, ?_, hrun, ?_, ?_⟩
  · intro now p h
    simp [publish_post, h]
  · intro now nowLater p t hs ht hle
    rw [hrun now p t hs ht hle]
    simp [publish_post]
  · intro now db
    match db with
    | none => rfl
    | some p =>
      by_cases h : p.status = PostStatus.scheduled
      · match hsa : p.scheduled_at with
        | none => simp [publish_post, h, hsa]
        | some t =>
          by_cases hgt : t > now
          · simp [publish_post, h, hsa, hgt]
          · rw [hrun now p t h hsa (by omega)]
            simp [publish_post]
      · simp [publish_post, h]

/-- C3 witness: a scheduled post with fire time 5 run at time 10 is
published, and re-running at time 11 is a no-op. -/
theorem claim_C3_witness :
    publish_post 10 (some exampleScheduledPost) = some examplePublishedPost ∧
    publish_post 11 (publish_post 10 (some exampleScheduledPost)) =
      publish_post 10 (some exampleScheduledPost) := by
  constructor
  · exact claim_C3_publish_idempotent.2.2.1 10 exampleScheduledPost 5 rfl rfl
      (by omega)
  · exact claim_C3_publish_idempotent.2.2.2.1 10 11 exampleScheduledPost 5 rfl rfl
      (by omega)

/-- C5: deleting a scheduled post that carries a task reference triggers
best-effort cancellation of the deferred task: the user-facing delete
always succeeds (even when the scheduler call fails), the row is gone,
on a successful cancellation the handle leaves the scheduler, and firing
the original task after deletion is a no-op that resurrects nothing. -/
theorem claim_C5_delete_cancels (p : Post) (tid : Nat) (sched : List Nat)
    (cancelFails : Bool) (now : Nat)
    (hs : p.status = PostStatus.scheduled) (ht : p.scheduled_task_id = some tid) :
    (deletePost (some p) sched cancelFails).2.2 = Except.ok () ∧
    (deletePost (some p) sched cancelFails).1 = none ∧
    (cancelFails = false → tid ∉ (deletePost (some p) sched cancelFails).2.1) ∧
    publish_post now (deletePost (some p) sched cancelFails).1 = none := by
  cases cancelFails <;>
    simp [deletePost, hs, ht, revoke_task, publish_post, List.mem_filter]

/-- C5 witness: deleting the scheduled post with task handle 7 removes
handle 7 from the scheduler, succeeds, and a later task firing finds
nothing. -/
theorem claim_C5_witness :
    (deletePost (some exampleScheduledPost) [7, 9] false).2.2 = Except.ok () ∧
    7 ∉ (deletePost (some exampleScheduledPost) [7, 9] false).2.1 ∧
    publish_post 10 (deletePost (some exampleScheduledPost) [7, 9] false).1 = none := by
  have h := claim_C5_delete_cancels exampleScheduledPost 7 [7, 9] false 10 rfl rfl
  exact ⟨h.1, h.2.2.1 rfl, h.2.2.2⟩

/-- C8: the claim that every denormalized counter decrement is clamped
at zero is false: the comment soft-delete decrement
(`F("comments_count") - 1`) and the like-delete decrement
(`F("likes_count") - 1`) apply no clamp, so at a zero counter they
produce −1. -/
theorem claim_C8_counterexample :
    commentsCountDec 0 < 0 ∧ likesCountDec 0 < 0 := by
  exact ⟨by decide, by decide⟩

/-- C8 (amended): only the follow counters are clamped at a floor of
zero (`Greatest(F - 1, 0)`); the like decrement is guarded by actual row
deletion but unclamped, and the comment soft-delete decrement is plain
minus-one, which drives a zero counter to −1. -/
theorem claim_C8_counters_amended :
    (∀ c : Int, 0 ≤ followCounterDec c) ∧
    (∀ c : Int, likeDelete { row_exists := false, likes_count := c } =
      ({ row_exists := false, likes_count := c },
       { liked := false, likes_count := c })) ∧
    commentsCountDec 0 = -1 ∧
    likesCountDec 0 = -1 := by
  refine ⟨fun c => le_max_right _ _, fun c => rfl, by decide, by decide⟩

/-- C9: the like endpoint is idempotent in both directions: PUT on an
existing row changes nothing and still reports liked with the current
count; PUT on a missing row adds the row and increments once; DELETE on
a missing row changes nothing; DELETE on an existing row removes it and
decrements once. -/
theorem claim_C9_like_idempotent (c : Int) :
    likePut { row_exists := true, likes_count := c } =
      ({ row_exists := true, likes_count := c },
       { liked := true, likes_count := c }) ∧
    likePut { row_exists := false, likes_count := c } =
      ({ row_exists := true, likes_count := c + 1 },
       { liked := true, likes_count := c + 1 }) ∧
    likeDelete { row_exists := false, likes_count := c } =
      ({ row_exists := false, likes_count := c },
       { liked := false, likes_count := c }) ∧
    likeDelete { row_exists := true, likes_count := c } =
      ({ row_exists := false, likes_count := c - 1 },
       { liked := false, likes_count := c - 1 }) := by
  exact ⟨rfl, rfl, rfl, rfl⟩

/-- C10: `Profile.can_view_details` is not total: it raises (models as
`.error ()`) exactly when the profile is private, the viewer is
authenticated, is not the owner, and the viewer's user has no associated
profile; on every other input it returns a boolean. -/
theorem claim_C10_can_view_details_partiality
    (prof : Profile) (edges : List FollowEdge) (viewer : ViewerUser) :
    (can_view_details prof edges viewer = Except.error () ↔
      (prof.is_private = true ∧ viewer.is_authenticated = true ∧
        viewer.id ≠ prof.userId ∧ viewer.profile = none)) ∧
    ((∃ b, can_view_details prof edges viewer = Except.ok b) ↔
      ¬(prof.is_private = true ∧ viewer.is_authenticated = true ∧
        viewer.id ≠ prof.userId ∧ viewer.profile = none)) := by
  rcases viewer with ⟨auth, vid, vprof⟩
  cases hp : prof.is_private <;> cases auth <;>
    by_cases hid : vid = prof.userId <;>
      rcases vprof with _ | vp <;>
        simp [can_view_details, hp, hid]

/-- C2: once a post is published, status and `scheduled_at` are terminal
from the user's perspective: an update naming a status other than
`published` is rejected, a non-null `scheduled_at` is rejected, and
after any accepted update the post is still published with a null
`scheduled_at`. -/
theorem claim_C2_published_terminal (p : Post) (d : PostData) (now : Nat)
    (hp : p.status = PostStatus.published) :
    (∀ s, d.status = some s → s ≠ PostStatus.published →
      postValidate (some p) d now =
        Except.error "Published post cant change status.") ∧
    (∀ t, d.scheduled_at = some (some t) →
      ∃ e, postValidate (some p) d now = Except.error e) ∧
    (∀ d2, postValidate (some p) d now = Except.ok d2 →
      (postUpdate p d2 now).status = PostStatus.published ∧
      (postUpdate p d2 now).scheduled_at = none) := by
  refine ⟨?_, ?_, ?_⟩
  · intro s hs hneq
    simp [postValidate, hp, hs, bne_iff_ne, hneq]
  · intro t ht
    rcases hds : d.status with _ | s
    · exact ⟨"Published post cant be scheduled.",
        by simp [postValidate, hp, hds, ht]⟩
    · by_cases hse : s = PostStatus.published
      · exact ⟨"Published post cant be scheduled.",
          by simp [postValidate, hp, hds, ht, hse]⟩
      · exact ⟨"Published post cant change status.",
          by simp [postValidate, hp, hds, bne_iff_ne, hse]⟩
  · intro d2 hok
    simp only [postValidate, hp, if_pos] at hok
    split at hok
    · simp at hok
    · split at hok
      · simp at hok
      · rw [Except.ok.injEq] at hok
        subst hok
        simp [postUpdate, hp]

/-- C2 witness: on the concrete published post, an update naming status
draft is rejected, an update naming a non-null `scheduled_at` is
rejected, and applying the validated form of an accepted update leaves
the post published with null `scheduled_at`. -/
theorem claim_C2_witness :
    postValidate (some examplePublishedPost)
      { status := some PostStatus.draft, scheduled_at := none } 20 =
      Except.error "Published post cant change status." ∧
    (∃ e, postValidate (some examplePublishedPost)
      { status := none, scheduled_at := some (some 30) } 20 = Except.error e) ∧
    (postUpdate examplePublishedPost
      { status := some PostStatus.published, scheduled_at := some none } 20).status =
      PostStatus.published ∧
    (postUpdate examplePublishedPost
      { status := some PostStatus.published, scheduled_at := some none } 20).scheduled_at =
      none := by
  have h1 := (claim_C2_published_terminal examplePublishedPost
    { status := some PostStatus.draft, scheduled_at := none } 20 rfl).1
    PostStatus.draft rfl (by decide)
  have h2 := (claim_C2_published_terminal examplePublishedPost
    { status := none, scheduled_at := some (some 30) } 20 rfl).2.1 30 rfl
  have h3 := (claim_C2_published_terminal examplePublishedPost
    { status := none, scheduled_at := none } 20 rfl).2.2
    { status := some PostStatus.published, scheduled_at := some none } rfl
  exact ⟨h1, h2, h3.1, h3.2⟩

/-- Helper for C6: every match the hashtag scanner returns consists of
1–50 characters from the class `[\w-]`. -/
theorem hashtagScan_matches_wellformed (fuel : Nat) :
    ∀ (prev : Option Char) (s m : List Char),
      m ∈ hashtagScan fuel prev s →
      1 ≤ m.length ∧ m.length ≤ 50 ∧ ∀ c ∈ m, isTagChar c = true := by
  induction fuel with
  | zero =>
    intro prev s m hm
    simp [hashtagScan] at hm
  | succ n ih =>
    intro prev s m hm
    match s with
    | [] => simp [hashtagScan] at hm
    | c :: rest =>
      simp only [hashtagScan] at hm
      split at hm
      · split at hm
        · exact ih _ _ _ hm
        · rcases List.mem_cons.mp hm with rfl | hm2
          · rename_i he
            refine ⟨?_, ?_, ?_⟩
            · have hne : (rest.takeWhile isTagChar).take 50 ≠ [] := by
                simpa [List.isEmpty_iff] using he
              have := List.length_pos.mpr hne
              omega
            · have := List.length_take 50 (rest.takeWhile isTagChar)
              omega
            · intro ch hch
              exact List.mem_takeWhile_imp (List.take_subset _ _ hch)
          · exact ih _ _ _ hm2
      · exact ih _ _ _ hm

/-- C6: the claimed deduplication is absent from the code:
`_extract_tags_from_content` lower-cases every match but keeps
duplicates, so the cited content yields `["world", "world", "test-1"]`,
not `["world", "test-1"]`. -/
theorem claim_C6_counterexample :
    extract_tags_from_content "hello #World #world #test-1" =
      ["world", "world", "test-1"] ∧
    extract_tags_from_content "hello #World #world #test-1" ≠
      ["world", "test-1"] := by
  exact ⟨by decide, by decide⟩

/-- C6 (amended): extraction matches a `#` immediately followed by 1–50
word-constituent characters (hyphens allowed) not preceded by a word
character, lower-cases every match and keeps them in match order without
deduplicating; on the cited content the result is
`["world", "world", "test-1"]`. -/
theorem claim_C6_extraction_amended :
    extract_tags_from_content "hello #World #world #test-1" =
      ["world", "world", "test-1"] ∧
    (∀ (content : String) (tag : String),
      tag ∈ extract_tags_from_content content →
      ∃ m ∈ hashtagFindAll none content.toList,
        tag = String.mk (m.map Char.toLower) ∧
        1 ≤ m.length ∧ m.length ≤ 50 ∧ ∀ c ∈ m, isTagChar c = true) := by
  refine ⟨by decide, ?_⟩
  intro content tag htag
  rcases List.mem_map.mp htag with ⟨m, hm, rfl⟩
  exact ⟨m, hm, rfl, hashtagScan_matches_wellformed _ _ _ _ hm⟩

/-- C6 witness: the first extracted tag of the cited content is the
lower-casing of a well-formed 1–50 character match. -/
theorem claim_C6_witness :
    ∃ m ∈ hashtagFindAll none ("hello #World #world #test-1").toList,
      "world" = String.mk (m.map Char.toLower) ∧
      1 ≤ m.length ∧ m.length ≤ 50 ∧ ∀ c ∈ m, isTagChar c = true := by
  exact claim_C6_extraction_amended.2 "hello #World #world #test-1" "world"
    (by decide)

/-- C4: every mutation — serializer create, serializer update of a row
already satisfying the invariant, and the deferred publish task —
preserves the lifecycle invariant `status = scheduled ↔ scheduled_at`
set and `status = published ↔ published_at` set. -/
theorem claim_C4_lifecycle_invariant :
    (∀ (a : Nat) (d d2 : PostData) (now : Nat),
      postValidate none d now = Except.ok d2 →
      postInvariant (postCreate a d2 now) = true) ∧
    (∀ (p : Post) (d d2 : PostData) (now : Nat),
      postInvariant p = true →
      postValidate (some p) d now = Except.ok d2 →
      postInvariant (postUpdate p d2 now) = true) ∧
    (∀ (p q : Post) (now : Nat),
      postInvariant p = true →
      publish_post now (some p) = some q →
      postInvariant q = true) := by
  refine ⟨?_, ?_, ?_⟩
  · intro a d d2 now hok
    rcases d with ⟨ds, dsch⟩
    rcases ds with _ | s
    all_goals try cases s
    all_goals rcases dsch with _ | _ | t
    all_goals simp [postValidate, postValidateGeneral] at hok
    all_goals try split at hok
    all_goals try simp at hok
    all_goals subst hok
    all_goals simp [postCreate, postInvariant]
  · intro p d d2 now hinv hok
    rcases p with ⟨pa, pst, psch, ppub, ptid⟩
    rcases d with ⟨ds, dsch⟩
    cases pst
    all_goals rcases psch with _ | t1
    all_goals rcases ppub with _ | t2
    all_goals simp [postInvariant] at hinv
    all_goals rcases ds with _ | s
    all_goals try cases s
    all_goals rcases dsch with _ | _ | t
    all_goals simp [postValidate, postValidateGeneral] at hok
    all_goals try split at hok
    all_goals try simp at hok
    all_goals subst hok
    all_goals simp [postUpdate, postInvariant]
  · intro p q now hinv hpub
    by_cases h : p.status = PostStatus.scheduled
    · rcases hsa : p.scheduled_at with _ | t
      · simp [postInvariant, h, hsa] at hinv
      · by_cases hgt : t > now
        · simp [publish_post, h, hsa, hgt] at hpub
          exact hpub ▸ hinv
        · simp [publish_post, h, hsa, hgt] at hpub
          subst hpub
          simp [postInvariant]
    · simp [publish_post, h] at hpub
      exact hpub ▸ hinv

/-- C4 witness: concrete instances — creating a post scheduled for time 5
at time 0, the accepted empty update of the concrete published post, and
the publish task firing on the concrete scheduled post — all satisfy the
invariant afterwards. -/
theorem claim_C4_witness :
    postInvariant (postCreate 1
      { status := some PostStatus.scheduled, scheduled_at := some (some 5) } 0) = true ∧
    postInvariant (postUpdate examplePublishedPost
      { status := some PostStatus.published, scheduled_at := some none } 20) = true ∧
    postInvariant examplePublishedPost = true := by
  refine ⟨?_, ?_, ?_⟩
  · exact claim_C4_lifecycle_invariant.1 1
      { status := some PostStatus.scheduled, scheduled_at := some (some 5) }
      { status := some PostStatus.scheduled, scheduled_at := some (some 5) } 0 rfl
  · exact claim_C4_lifecycle_invariant.2.1 examplePublishedPost
      { status := none, scheduled_at := none }
      { status := some PostStatus.published, scheduled_at := some none } 20 rfl rfl
  · exact claim_C4_lifecycle_invariant.2.2 exampleScheduledPost
      examplePublishedPost 10 rfl rfl

/-- Helper for C7: resetting the status of the edges matching an ordered
pair does not change any pair's row count. -/
theorem pairCount_map_reset (edges : List FollowEdge) (me tgt a b : Nat) :
    pairCount (edges.map fun x =>
      if x.follower = me && x.following = tgt then
        { x with status := FollowStatus.pending }
      else x) a b = pairCount edges a b := by
  induction edges with
  | nil => rfl
  | cons y ys ih =>
    simp only [List.map_cons, pairCount, List.countP_cons] at *
    by_cases hk : (decide (y.follower = me) && decide (y.following = tgt)) = true
    · simp only [hk, if_true, ih]
    · simp only [hk, if_false, Bool.false_eq_true, ite_false, ih]

/-- C7: a follow request from a distinct profile creates the edge with
status accepted when the target is public and pending when the target is
private; re-requesting an existing non-accepted edge toward a private
target resets it to pending in place; and the one-edge-per-ordered-pair
bound is preserved (no duplicate rows). -/
theorem claim_C7_follow_creation (edges : List FollowEdge) (me : Nat)
    (target : Profile) (hne : me ≠ target.id) :
    (findEdge edges me target.id = none → target.is_private = false →
      followRequest edges me target =
        Except.ok (⟨me, target.id, FollowStatus.accepted⟩ :: edges)) ∧
    (findEdge edges me target.id = none → target.is_private = true →
      followRequest edges me target =
        Except.ok (⟨me, target.id, FollowStatus.pending⟩ :: edges)) ∧
    (∀ e, findEdge edges me target.id = some e → target.is_private = true →
      e.status ≠ FollowStatus.accepted →
      ∃ res, followRequest edges me target = Except.ok res ∧
        res.length = edges.length ∧
        (∃ x ∈ res, x.follower = me ∧ x.following = target.id ∧
          x.status = FollowStatus.pending) ∧
        (∀ x ∈ res, x.follower = me → x.following = target.id →
          x.status = FollowStatus.pending)) ∧
    (∀ res, followRequest edges me target = Except.ok res →
      (∀ a b, pairCount edges a b ≤ 1) → ∀ a b, pairCount res a b ≤ 1) := by
  refine ⟨?_, ?_, ?_, ?_⟩
  · intro h hpub
    simp [followRequest, hne, h, hpub]
  · intro h hpriv
    simp [followRequest, hne, h, hpriv]
  · intro e he hpriv hacc
    have hmem := List.mem_of_find?_eq_some he
    have hkey := List.find?_some he
    rw [Bool.and_eq_true, decide_eq_true_eq, decide_eq_true_eq] at hkey
    refine ⟨edges.map fun x =>
        if x.follower = me && x.following = target.id then
          { x with status := FollowStatus.pending }
        else x, ?_, by simp, ?_, ?_⟩
    · simp [followRequest, hne, he, hpriv, bne_iff_ne, hacc]
    · refine ⟨{ e with status := FollowStatus.pending },
        List.mem_map.mpr ⟨e, hmem, ?_⟩, hkey.1, hkey.2, rfl⟩
      simp [hkey.1, hkey.2]
    · intro x hx h1 h2
      rcases List.mem_map.mp hx with ⟨y, hy, rfl⟩
      by_cases hk : (decide (y.follower = me) && decide (y.following = target.id)) = true
      · simp [hk]
      · simp only [hk, Bool.false_eq_true, ite_false] at h1 h2 ⊢
        simp [h1, h2] at hk
  · intro res hres huniq a b
    rcases hf : findEdge edges me target.id with _ | e
    · simp only [followRequest, if_neg hne, hf, Except.ok.injEq] at hres
      subst hres
      rw [pairCount, List.countP_cons]
      by_cases h1 : me = a
      · by_cases h2 : target.id = b
        · subst h1
          subst h2
          have hzero : List.countP
              (fun e => decide (e.follower = me) && decide (e.following = target.id))
              edges = 0 := by
            rw [List.countP_eq_zero]
            intro x hx hpx
            exact List.find?_eq_none.mp hf x hx hpx
          simp [hzero]
        · have := huniq a b
          rw [pairCount] at this
          simp [h2, this]
      · have := huniq a b
        rw [pairCount] at this
        simp [h1, this]
    · simp only [followRequest, if_neg hne, hf] at hres
      split at hres
      · rw [Except.ok.injEq] at hres
        subst hres
        rw [pairCount_map_reset]
        exact huniq a b
      · rw [Except.ok.injEq] at hres
        subst hres
        exact huniq a b

/-- C7 witness: on concrete inputs, following the public profile 2 from
profile 1 creates an accepted edge, and following the private profile 2
creates a pending edge. -/
theorem claim_C7_witness :
    followRequest [] 1 { id := 2, userId := 20, is_private := false } =
      Except.ok [⟨1, 2, FollowStatus.accepted⟩] ∧
    followRequest [] 1 { id := 2, userId := 20, is_private := true } =
      Except.ok [⟨1, 2, FollowStatus.pending⟩] := by
  constructor
  · exact (claim_C7_follow_creation [] 1
      { id := 2, userId := 20, is_private := false } (by decide)).1 rfl rfl
  · exact (claim_C7_follow_creation [] 1
      { id := 2, userId := 20, is_private := true } (by decide)).2.1 rfl rfl

/-- C1 witness: the amended equivalence evaluated at the concrete
counterexample input. -/
theorem claim_C1_witness :
    canViewPostDetail [] { is_authenticated := true, profileId := 1, safe_or_post := true }
      examplePublicAuthorPost =
    canViewPostAmended [] { is_authenticated := true, profileId := 1, safe_or_post := true }
      examplePublicAuthorPost := by
  exact claim_C1_post_visibility_amended []
    { is_authenticated := true, profileId := 1, safe_or_post := true }
    examplePublicAuthorPost

/-- C8 witness: the amended clamping statement at counter value 0. -/
theorem claim_C8_witness :
    (0 : Int) ≤ followCounterDec 0 ∧
    likeDelete { row_exists := false, likes_count := 0 } =
      ({ row_exists := false, likes_count := 0 },
       { liked := false, likes_count := 0 }) ∧
    commentsCountDec 0 = -1 := by
  exact ⟨claim_C8_counters_amended.1 0, claim_C8_counters_amended.2.1 0,
    claim_C8_counters_amended.2.2.1⟩

/-- C9 witness: the like endpoint equations at count 3. -/
theorem claim_C9_witness :
    likePut { row_exists := true, likes_count := 3 } =
      ({ row_exists := true, likes_count := 3 },
       { liked := true, likes_count := 3 }) ∧
    likePut { row_exists := false, likes_count := 3 } =
      ({ row_exists := true, likes_count := 3 + 1 },
       { liked := true, likes_count := 3 + 1 }) ∧
    likeDelete { row_exists := false, likes_count := 3 } =
      ({ row_exists := false, likes_count := 3 },
       { liked := false, likes_count := 3 }) ∧
    likeDelete { row_exists := true, likes_count := 3 } =
      ({ row_exists := false, likes_count := 3 - 1 },
       { liked := false, likes_count := 3 - 1 }) := by
  exact claim_C9_like_idempotent 3

/-- C10 witness: on the concrete private profile and an authenticated
non-owner viewer without a profile, `can_view_details` raises. -/
theorem claim_C10_witness :
    can_view_details { id := 2, userId := 20, is_private := true } []
      { is_authenticated := true, id := 5, profile := none } = Except.error () := by
  exact (claim_C10_can_view_details_partiality
    { id := 2, userId := 20, is_private := true } []
    { is_authenticated := true, id := 5, profile := none }).1.mpr
    ⟨rfl, rfl, by decide, rfl⟩

end SocialMedia
